import Mathlib

/-!
Verification of the gce-rescue v2 saga-style orchestration engine.

The definitions below are a shallow embedding of the Python sources under
gce_rescue_v2/: the state tracker (orchestration/state.py), the rollback
handler (orchestration/rollback.py), the operation implementations
(operations/), the validation pipeline (validators/) and the two
orchestrator workflows (orchestration/rescue.py, orchestration/restore.py).

Modelling conventions:
- Python dictionaries holding rollback data are association lists of
  `Value`s; Python truthiness of a value or of an optional dictionary is
  made explicit (`Value.truthy`, `dataTruthy`).
- The compute client is an external collaborator.  Its calls are recorded
  as explicit traces where a claim is about which calls are issued, and
  asynchronous transitions (stop/start/create reaching their settled
  status) are collapsed where a claim is about the workflow end state.
  Polling loops are modelled over the sequence of statuses observed at
  each poll, with elapsed time 5 * i at poll i (the fixed 5 second sleep
  of BaseOperation._wait_for_status).
- Expected failures become result objects exactly as in the source;
  a Python exception caught by a handler is modelled by the value the
  handler returns.  Wall-clock timestamps and log output are dropped.
-/

namespace GceRescue

/-- A Python value stored in a rollback-data dictionary. -/
inductive Value where
  | vStr (s : String)
  | vBool (b : Bool)
  | vDict (d : List (String × Value))
  | vList (l : List Value)
deriving Repr

/-- A Python dictionary (association list, first binding wins on lookup). -/
abbrev Dict := List (String × Value)

/-- Python truthiness of a value: empty string, False, empty dict and
empty list are falsy. -/
def Value.truthy : Value → Bool
  | .vStr s => !(s == "")
  | .vBool b => b
  | .vDict d => !d.isEmpty
  | .vList l => !l.isEmpty

/-- Python truthiness of an `Optional[dict]`: `None` and the empty
dictionary are falsy. -/
def dataTruthy : Option Dict → Bool
  | none => false
  | some d => !d.isEmpty

/-- Python truthiness of `dict.get(key)`: a missing key yields `None`,
which is falsy. -/
def optTruthy : Option Value → Bool
  | none => false
  | some v => v.truthy

/-- The Python comparison `v == "literal"`: true exactly when v is that
string (a value of any other type compares unequal without raising). -/
def Value.isStr (v : Value) (s : String) : Bool :=
  match v with
  | .vStr t => t == s
  | _ => false

/-- orchestration/state.py, OperationState: the record appended to the
tracker for each Operation.execute call.  The wall-clock timestamp field
is dropped (it is never read). -/
structure OperationState where
  operation_name : String
  success : Bool
  message : String
  rollback_data : Option Dict
deriving Repr

/-- orchestration/state.py, StateTracker: append-only list of operation
states in execution order. -/
structure StateTracker where
  operations : List OperationState
deriving Repr

/-- StateTracker.add_operation: append one record. -/
def StateTracker.add_operation (t : StateTracker) (operation_name : String)
    (success : Bool) (message : String) (rollback_data : Option Dict) : StateTracker :=
  { operations := t.operations ++ [⟨operation_name, success, message, rollback_data⟩] }

/-- StateTracker.get_successful_operations. -/
def StateTracker.get_successful_operations (t : StateTracker) : List OperationState :=
  t.operations.filter (fun op => op.success)

/-- StateTracker.get_failed_operations. -/
def StateTracker.get_failed_operations (t : StateTracker) : List OperationState :=
  t.operations.filter (fun op => !op.success)

/-- StateTracker.get_rollback_operations: the successful subset in
reverse order. -/
def StateTracker.get_rollback_operations (t : StateTracker) : List OperationState :=
  (t.get_successful_operations).reverse

/-- StateTracker.all_succeeded. -/
def StateTracker.all_succeeded (t : StateTracker) : Bool :=
  t.operations.all (fun op => op.success)

/-- Result of one Python `operation.rollback(data)` call as seen by the
rollback handler: either a returned boolean or a raised exception. -/
inductive PyBool where
  | ok (b : Bool)
  | raised
deriving Repr, BEq

/-- An operation instance as the rollback handler sees it: only its
`rollback` method matters there. -/
structure RollbackOp where
  rollback : Dict → PyBool

/-- Instrumentation record: one invocation of `operation.rollback(data)`
performed by the rollback handler, with the data that was passed. -/
structure RollbackCall where
  name : String
  data : Dict
deriving Repr

/-- One iteration of the loop in RollbackHandler.rollback
(orchestration/rollback.py lines 84-111).  The accumulator carries the
`all_succeeded` flag and the trace of `operation.rollback` invocations.
Note the order of the checks in the source: the map lookup comes first,
and a missing operation sets `all_succeeded = False` before `continue`;
only then is an absent or empty rollback_data skipped silently. -/
def rollbackStep (operations_map : List (String × RollbackOp))
    (acc : Bool × List RollbackCall) (op_state : OperationState) :
    Bool × List RollbackCall :=
  match List.lookup op_state.operation_name operations_map with
  | none => (false, acc.2)
  | some operation =>
    match op_state.rollback_data with
    | none => acc
    | some d =>
      if d.isEmpty then acc
      else
        match operation.rollback d with
        | .ok true => (acc.1, acc.2 ++ [⟨op_state.operation_name, d⟩])
        | .ok false => (false, acc.2 ++ [⟨op_state.operation_name, d⟩])
        | .raised => (false, acc.2 ++ [⟨op_state.operation_name, d⟩])

/-- RollbackHandler.rollback: fold the loop body over the reversed
successful subset.  Returns the aggregate `all_succeeded` boolean of the
source together with the instrumentation trace of compensation calls.
An empty rollback list returns `true` exactly as the early return in the
source does. -/
def RollbackHandler.rollback (state_tracker : StateTracker)
    (operations_map : List (String × RollbackOp)) : Bool × List RollbackCall :=
  (state_tracker.get_rollback_operations).foldl (rollbackStep operations_map) (true, [])

/-- The compensation call the handler makes for one operation state, if
any: present exactly when the operation is found in the map and the
recorded rollback data is a non-empty dictionary. -/
def callOf (operations_map : List (String × RollbackOp))
    (op_state : OperationState) : Option RollbackCall :=
  match List.lookup op_state.operation_name operations_map with
  | none => none
  | some _ =>
    match op_state.rollback_data with
    | none => none
    | some d => if d.isEmpty then none else some ⟨op_state.operation_name, d⟩

theorem rollbackStep_trace (m : List (String × RollbackOp))
    (acc : Bool × List RollbackCall) (op : OperationState) :
    (rollbackStep m acc op).2 = acc.2 ++ (callOf m op).toList := by
  unfold rollbackStep callOf
  cases List.lookup op.operation_name m with
  | none => simp
  | some o =>
    cases h : op.rollback_data with
    | none => simp
    | some d =>
      by_cases hd : d.isEmpty
      · simp [hd]
      · simp only [hd, if_false]
        cases o.rollback d with
        | ok b => cases b <;> simp
        | raised => simp

theorem foldl_rollbackStep_trace (m : List (String × RollbackOp)) :
    ∀ (ops : List OperationState) (b : Bool) (t : List RollbackCall),
    (ops.foldl (rollbackStep m) (b, t)).2 = t ++ ops.filterMap (callOf m) := by
  intro ops
  induction ops with
  | nil => intro b t; simp
  | cons op rest ih =>
    intro b t
    have hstep := rollbackStep_trace m (b, t) op
    simp only [List.foldl_cons, List.filterMap_cons]
    rcases hp : rollbackStep m (b, t) op with ⟨b2, t2⟩
    rw [hp] at hstep
    cases hc : callOf m op with
    | none =>
      have h2 : t2 = t := by simpa [hc] using hstep
      subst h2
      simp [hc, ih b2 t2]
    | some c =>
      have h2 : t2 = t ++ [c] := by simpa [hc] using hstep
      subst h2
      simp [hc, ih b2 (t ++ [c])]

theorem rollbackStep_false (m : List (String × RollbackOp)) (t : List RollbackCall)
    (op : OperationState) : (rollbackStep m (false, t) op).1 = false := by
  unfold rollbackStep
  cases List.lookup op.operation_name m with
  | none => simp
  | some o =>
    cases op.rollback_data with
    | none => simp
    | some d =>
      by_cases hd : d.isEmpty
      · simp [hd]
      · simp only [hd, if_false]
        cases o.rollback d with
        | ok b => cases b <;> simp
        | raised => simp

theorem foldl_rollbackStep_false (m : List (String × RollbackOp)) :
    ∀ (ops : List OperationState) (t : List RollbackCall),
    (ops.foldl (rollbackStep m) (false, t)).1 = false := by
  intro ops
  induction ops with
  | nil => intro t; simp
  | cons op rest ih =>
    intro t
    have hf := rollbackStep_false m t op
    simp only [List.foldl_cons]
    rw [show (rollbackStep m (false, t) op) = ((rollbackStep m (false, t) op).1, (rollbackStep m (false, t) op).2) from rfl]
    rw [hf]
    exact ih _

theorem foldl_rollbackStep_absent (m : List (String × RollbackOp)) :
    ∀ (ops : List OperationState) (b : Bool) (t : List RollbackCall)
    (op : OperationState), op ∈ ops →
    List.lookup op.operation_name m = none →
    (ops.foldl (rollbackStep m) (b, t)).1 = false := by
  intro ops
  induction ops with
  | nil => intro b t op h; exact absurd h (List.not_mem_nil op)
  | cons hd rest ih =>
    intro b t op hmem habs
    simp only [List.foldl_cons]
    rcases List.mem_cons.mp hmem with heq | hrest
    · subst heq
      have : rollbackStep m (b, t) op = (false, (rollbackStep m (b, t) op).2) := by
        unfold rollbackStep
        rw [habs]
      rw [this]
      exact foldl_rollbackStep_false m rest _
    · rw [show (rollbackStep m (b, t) hd) = ((rollbackStep m (b, t) hd).1, (rollbackStep m (b, t) hd).2) from rfl]
      exact ih _ _ op hrest habs

theorem filterMap_eq_map_of {α β : Type} (l : List α) (f : α → Option β) (g : α → β)
    (h : ∀ a ∈ l, f a = some (g a)) : l.filterMap f = l.map g := by
  induction l with
  | nil => simp
  | cons a rest ih =>
    have ha := h a (List.mem_cons_self a rest)
    simp only [List.filterMap_cons, ha, List.map_cons]
    rw [ih (fun x hx => h x (List.mem_cons_of_mem a hx))]

theorem callOf_eq_some (m : List (String × RollbackOp)) (op : OperationState)
    (hm : (List.lookup op.operation_name m).isSome = true)
    (hd : dataTruthy op.rollback_data = true) :
    callOf m op = some ⟨op.operation_name, op.rollback_data.getD []⟩ := by
  unfold callOf
  obtain ⟨o, ho⟩ := Option.isSome_iff_exists.mp hm
  rw [ho]
  cases hrd : op.rollback_data with
  | none => rw [hrd] at hd; simp [dataTruthy] at hd
  | some d =>
    rw [hrd] at hd
    simp only [dataTruthy, Bool.not_eq_true'] at hd
    simp [hd]

/-- C1: for a run whose steps 1 through k-1 executed successfully and whose
step k failed, with every successful step present in the operations map and
carrying a truthy rollback dictionary, RollbackHandler.rollback invokes
operation.rollback exactly once per successful step, in exact reverse
execution order with each step's recorded data, and never for the failed
step; equivalently the invoked names are exactly the successful names
reversed. -/
theorem rollback_compensates_exactly_reverse_prefix
    (succs : List OperationState) (failedStep : OperationState)
    (m : List (String × RollbackOp))
    (hs : ∀ op ∈ succs, op.success = true)
    (hf : failedStep.success = false)
    (hm : ∀ op ∈ succs, (List.lookup op.operation_name m).isSome = true)
    (hd : ∀ op ∈ succs, dataTruthy op.rollback_data = true) :
    (RollbackHandler.rollback ⟨succs ++ [failedStep]⟩ m).2
      = succs.reverse.map (fun op => ⟨op.operation_name, op.rollback_data.getD []⟩) ∧
    ((RollbackHandler.rollback ⟨succs ++ [failedStep]⟩ m).2).map RollbackCall.name
      = (succs.map OperationState.operation_name).reverse := by
  have hrb : StateTracker.get_rollback_operations ⟨succs ++ [failedStep]⟩ = succs.reverse := by
    unfold StateTracker.get_rollback_operations StateTracker.get_successful_operations
    simp only [List.filter_append]
    rw [List.filter_eq_self.mpr (by intro a ha; exact hs a ha)]
    simp [hf]
  have htr : (RollbackHandler.rollback ⟨succs ++ [failedStep]⟩ m).2
      = succs.reverse.filterMap (callOf m) := by
    unfold RollbackHandler.rollback
    rw [hrb, foldl_rollbackStep_trace]
    simp
  have hmap : succs.reverse.filterMap (callOf m)
      = succs.reverse.map (fun op => ⟨op.operation_name, op.rollback_data.getD []⟩) := by
    apply filterMap_eq_map_of
    intro op hop
    have hop' : op ∈ succs := List.mem_reverse.mp hop
    exact callOf_eq_some m op (hm op hop') (hd op hop')
  constructor
  · rw [htr, hmap]
  · rw [htr, hmap]
    simp [List.map_reverse, Function.comp]

/-- Sample data: a successful stop step as stop_vm.py records it. -/
def sampleStop : OperationState :=
  ⟨"Stop VM", true, "VM stopped",
   some [("vm_name", .vStr "vm-1"), ("original_status", .vStr "RUNNING")]⟩

/-- Sample data: a successful disk creation step as create_disk.py records it. -/
def sampleDisk : OperationState :=
  ⟨"Create Rescue Disk", true, "Disk created", some [("disk_name", .vStr "rescue-disk-1")]⟩

/-- Sample data: a failed third step. -/
def sampleFailed : OperationState :=
  ⟨"Detach Boot Disk", false, "Failed to detach disk", none⟩

/-- Sample operations map covering the two successful sample steps. -/
def sampleMap : List (String × RollbackOp) :=
  [("Stop VM", ⟨fun _ => .ok true⟩), ("Create Rescue Disk", ⟨fun _ => .ok true⟩)]

/-- Witness for C1: two successful steps followed by a failure are
compensated in exact reverse order. -/
theorem rollback_compensates_exactly_reverse_prefix_witness :
    (∀ op ∈ [sampleStop, sampleDisk], op.success = true) ∧
    sampleFailed.success = false ∧
    ((RollbackHandler.rollback ⟨[sampleStop, sampleDisk] ++ [sampleFailed]⟩ sampleMap).2
        = [sampleStop, sampleDisk].reverse.map
            (fun op => ⟨op.operation_name, op.rollback_data.getD []⟩) ∧
      ((RollbackHandler.rollback ⟨[sampleStop, sampleDisk] ++ [sampleFailed]⟩ sampleMap).2).map
          RollbackCall.name
        = ([sampleStop, sampleDisk].map OperationState.operation_name).reverse) :=
  have hmem2 : ∀ {P : OperationState → Prop}, P sampleStop → P sampleDisk →
      ∀ op ∈ [sampleStop, sampleDisk], P op := by
    intro P h1 h2 op hmem
    cases hmem with
    | head => exact h1
    | tail _ h3 =>
      cases h3 with
      | head => exact h2
      | tail _ h4 => cases h4
  ⟨hmem2 rfl rfl, rfl,
   rollback_compensates_exactly_reverse_prefix [sampleStop, sampleDisk] sampleFailed sampleMap
     (hmem2 rfl rfl) rfl (hmem2 rfl rfl) (hmem2 rfl rfl)⟩

/-- Sample data: a successful step whose name is not in the sample map. -/
def sampleOrphan : OperationState :=
  ⟨"Delete Disk", true, "Disk deleted", some [("disk_name", .vStr "d1")]⟩

/-- C2 counterexample: a successful step whose operation identifier is
absent from the operations map makes the aggregate boolean false even
though nothing else failed, contradicting the claim that the absence alone
never does (orchestration/rollback.py lines 90-93 set all_succeeded =
False and log an error before continuing). -/
theorem rollback_absent_op_flags_failure_cex :
    (RollbackHandler.rollback ⟨[sampleOrphan]⟩ []).1 = false ∧
    (RollbackHandler.rollback ⟨[sampleOrphan]⟩ []).2 = [] :=
  ⟨rfl, rfl⟩

/-- C2 corrected: a successful step absent from the operations map is
skipped without any compensation call, and the handler continues past it
(the remaining trace is unchanged), but the absence is treated as an
error: the aggregate fully-rolled-back boolean is false. -/
theorem rollback_absent_op_skipped_but_flags_failure
    (t : StateTracker) (m : List (String × RollbackOp)) (op : OperationState)
    (hop : op ∈ t.get_rollback_operations)
    (habs : List.lookup op.operation_name m = none) :
    (RollbackHandler.rollback t m).1 = false ∧
    (RollbackHandler.rollback t m).2 = (t.get_rollback_operations).filterMap (callOf m) ∧
    ∀ c ∈ (RollbackHandler.rollback t m).2, c.name ≠ op.operation_name := by
  refine ⟨foldl_rollbackStep_absent m _ true [] op hop habs, ?_, ?_⟩
  · unfold RollbackHandler.rollback
    rw [foldl_rollbackStep_trace]
    simp
  · intro c hc
    unfold RollbackHandler.rollback at hc
    rw [foldl_rollbackStep_trace] at hc
    simp only [List.nil_append] at hc
    obtain ⟨a, _, hca⟩ := List.mem_filterMap.mp hc
    intro hname
    unfold callOf at hca
    split at hca
    · exact Option.noConfusion hca
    · rename_i o hl
      split at hca
      · exact Option.noConfusion hca
      · rename_i d hrd
        split at hca
        · exact Option.noConfusion hca
        · have hceq : RollbackCall.mk a.operation_name d = c := Option.some.inj hca
          have hcn : c.name = a.operation_name := by rw [← hceq]
          rw [hcn] at hname
          rw [hname] at hl
          rw [hl] at habs
          exact Option.noConfusion habs

/-- Witness for C2 corrected: a two-step run where the later "Delete Disk"
step is absent from the map; the earlier "Stop VM" step is still
compensated, yet the aggregate is false. -/
theorem rollback_absent_op_skipped_but_flags_failure_witness :
    (RollbackHandler.rollback ⟨[sampleStop, sampleOrphan]⟩ sampleMap).1 = false ∧
    (RollbackHandler.rollback ⟨[sampleStop, sampleOrphan]⟩ sampleMap).2
      = (StateTracker.get_rollback_operations ⟨[sampleStop, sampleOrphan]⟩).filterMap
          (callOf sampleMap) ∧
    ∀ c ∈ (RollbackHandler.rollback ⟨[sampleStop, sampleOrphan]⟩ sampleMap).2,
      c.name ≠ sampleOrphan.operation_name :=
  rollback_absent_op_skipped_but_flags_failure ⟨[sampleStop, sampleOrphan]⟩ sampleMap
    sampleOrphan (List.Mem.head _) rfl

/-- operations/base.py, OperationResult. -/
structure OperationResult where
  operation_name : String
  success : Bool
  message : String
  rollback_data : Option Dict := none
  error : Option String := none
deriving Repr

/-- BaseOperation._wait_for_status (operations/base.py lines 147-176),
modelled over the sequence of statuses the loop observes: poll i happens
at elapsed time 5 * i (the fixed 5 second sleep), the timeout check comes
before the status check, and the loop exits on target or on elapsed time
exceeding the timeout.  The fuel argument is an upper bound on the number
of polls; timeout / 5 + 2 polls always suffice because the timeout check
trips at the first poll with 5 * i > timeout. -/
def waitFrom (statuses : Nat → String) (target : String) (timeout : Nat) :
    Nat → Nat → Bool
  | _, 0 => false
  | i, fuel + 1 =>
    if 5 * i > timeout then false
    else if statuses i = target then true
    else waitFrom statuses target timeout (i + 1) fuel

/-- BaseOperation._wait_for_status entry point (first poll at elapsed 0). -/
def waitForStatus (statuses : Nat → String) (target : String) (timeout : Nat) : Bool :=
  waitFrom statuses target timeout 0 (timeout / 5 + 2)

theorem waitFrom_sound (statuses : Nat → String) (target : String) (timeout : Nat) :
    ∀ (fuel i : Nat), waitFrom statuses target timeout i fuel = true →
    ∃ j, i ≤ j ∧ 5 * j ≤ timeout ∧ statuses j = target := by
  intro fuel
  induction fuel with
  | zero => intro i h; exact absurd h (by simp [waitFrom])
  | succ f ih =>
    intro i h
    unfold waitFrom at h
    by_cases h1 : 5 * i > timeout
    · rw [if_pos h1] at h; exact absurd h (by simp)
    · rw [if_neg h1] at h
      by_cases h2 : statuses i = target
      · exact ⟨i, Nat.le_refl i, by omega, h2⟩
      · rw [if_neg h2] at h
        obtain ⟨j, hij, hjt, hjs⟩ := ih (i + 1) h
        exact ⟨j, by omega, hjt, hjs⟩

theorem waitFrom_complete (statuses : Nat → String) (target : String) (timeout : Nat) :
    ∀ (fuel i j : Nat), i ≤ j → j - i < fuel → 5 * j ≤ timeout → statuses j = target →
    waitFrom statuses target timeout i fuel = true := by
  intro fuel
  induction fuel with
  | zero => intro i j _ h; omega
  | succ f ih =>
    intro i j hij hlt hjt hjs
    unfold waitFrom
    have h1 : ¬ 5 * i > timeout := by omega
    rw [if_neg h1]
    by_cases h2 : statuses i = target
    · rw [if_pos h2]
    · rw [if_neg h2]
      have hne : i ≠ j := fun he => h2 (he ▸ hjs)
      exact ih (i + 1) j (by omega) (by omega) hjt hjs

theorem waitForStatus_true_iff (statuses : Nat → String) (target : String) (timeout : Nat) :
    waitForStatus statuses target timeout = true ↔
    ∃ j, 5 * j ≤ timeout ∧ statuses j = target := by
  constructor
  · intro h
    obtain ⟨j, _, hjt, hjs⟩ := waitFrom_sound statuses target timeout (timeout / 5 + 2) 0 h
    exact ⟨j, hjt, hjs⟩
  · rintro ⟨j, hjt, hjs⟩
    exact waitFrom_complete statuses target timeout (timeout / 5 + 2) 0 j (Nat.zero_le j)
      (by omega) hjt hjs

/-- Outcome of the snapshot-creation polling loop in
CreateSnapshotOperation.execute (create_snapshot.py lines 75-124). -/
inductive SnapWait where
  | ready
  | failed
  | timedOut
deriving Repr, DecidableEq, BEq

/-- The snapshot polling loop: timeout check first, then the status read
(`none` models the snapshots.get call raising because the snapshot does
not exist yet, which the source treats as keep waiting), stopping on
READY or FAILED. -/
def snapWaitFrom (statuses : Nat → Option String) (timeout : Nat) :
    Nat → Nat → SnapWait
  | _, 0 => .timedOut
  | i, fuel + 1 =>
    if 5 * i > timeout then .timedOut
    else
      match statuses i with
      | some s =>
        if s = "READY" then .ready
        else if s = "FAILED" then .failed
        else snapWaitFrom statuses timeout (i + 1) fuel
      | none => snapWaitFrom statuses timeout (i + 1) fuel

/-- Entry point of the snapshot polling loop. -/
def snapWait (statuses : Nat → Option String) (timeout : Nat) : SnapWait :=
  snapWaitFrom statuses timeout 0 (timeout / 5 + 2)

theorem snapWaitFrom_ready_sound (statuses : Nat → Option String) (timeout : Nat) :
    ∀ (fuel i : Nat), snapWaitFrom statuses timeout i fuel = .ready →
    ∃ j, i ≤ j ∧ 5 * j ≤ timeout ∧ statuses j = some "READY" := by
  intro fuel
  induction fuel with
  | zero => intro i h; exact absurd h (by simp [snapWaitFrom])
  | succ f ih =>
    intro i h
    unfold snapWaitFrom at h
    by_cases h1 : 5 * i > timeout
    · rw [if_pos h1] at h; exact absurd h (by simp)
    · rw [if_neg h1] at h
      split at h
      · rename_i s hs
        by_cases h2 : s = "READY"
        · exact ⟨i, Nat.le_refl i, by omega, by rw [hs, h2]⟩
        · rw [if_neg h2] at h
          by_cases h3 : s = "FAILED"
          · rw [if_pos h3] at h; exact absurd h (by simp)
          · rw [if_neg h3] at h
            obtain ⟨j, hij, hjt, hjs⟩ := ih (i + 1) h
            exact ⟨j, by omega, hjt, hjs⟩
      · obtain ⟨j, hij, hjt, hjs⟩ := ih (i + 1) h
        exact ⟨j, by omega, hjt, hjs⟩

theorem snapWaitFrom_failed_sound (statuses : Nat → Option String) (timeout : Nat) :
    ∀ (fuel i : Nat), snapWaitFrom statuses timeout i fuel = .failed →
    ∃ j, i ≤ j ∧ 5 * j ≤ timeout ∧ statuses j = some "FAILED" := by
  intro fuel
  induction fuel with
  | zero => intro i h; exact absurd h (by simp [snapWaitFrom])
  | succ f ih =>
    intro i h
    unfold snapWaitFrom at h
    by_cases h1 : 5 * i > timeout
    · rw [if_pos h1] at h; exact absurd h (by simp)
    · rw [if_neg h1] at h
      split at h
      · rename_i s hs
        by_cases h2 : s = "READY"
        · rw [if_pos h2] at h; exact absurd h (by simp)
        · rw [if_neg h2] at h
          by_cases h3 : s = "FAILED"
          · exact ⟨i, Nat.le_refl i, by omega, by rw [hs, h3]⟩
          · rw [if_neg h3] at h
            obtain ⟨j, hij, hjt, hjs⟩ := ih (i + 1) h
            exact ⟨j, by omega, hjt, hjs⟩
      · obtain ⟨j, hij, hjt, hjs⟩ := ih (i + 1) h
        exact ⟨j, by omega, hjt, hjs⟩

/-- StopVMOperation.execute (stop_vm.py lines 33-130), over the status
returned by the initial instances.get and the status sequence the polling
loop observes after the stop call.  The success messages drop the
wall-clock duration suffix of the source; the failure messages are kept
verbatim. -/
def StopVMOperation.execute (vm_name : String) (timeout : Nat)
    (original_status : String) (polled : Nat → String) : OperationResult :=
  if original_status = "RUNNING" then
    if waitForStatus polled "TERMINATED" timeout then
      { operation_name := "Stop VM", success := true, message := "VM stopped",
        rollback_data := some [("vm_name", .vStr vm_name),
                               ("original_status", .vStr original_status)] }
    else
      { operation_name := "Stop VM", success := false,
        message := s!"Timeout waiting for VM to stop (>{timeout}s)" }
  else if original_status = "TERMINATED" then
    { operation_name := "Stop VM", success := true, message := "VM already stopped",
      rollback_data := some [("vm_name", .vStr vm_name),
                             ("original_status", .vStr original_status)] }
  else
    { operation_name := "Stop VM", success := false,
      message := s!"VM is in unexpected state: {original_status}",
      error := some s!"Cannot stop VM in state: {original_status}" }

/-- StartVMOperation.execute (start_vm.py lines 24-117), same conventions
as StopVMOperation.execute. -/
def StartVMOperation.execute (vm_name : String) (timeout : Nat)
    (original_status : String) (polled : Nat → String) : OperationResult :=
  if original_status = "TERMINATED" then
    if waitForStatus polled "RUNNING" timeout then
      { operation_name := "Start VM", success := true, message := "VM started",
        rollback_data := some [("vm_name", .vStr vm_name),
                               ("original_status", .vStr original_status)] }
    else
      { operation_name := "Start VM", success := false,
        message := s!"Timeout waiting for VM to start (>{timeout}s)" }
  else if original_status = "RUNNING" then
    { operation_name := "Start VM", success := true, message := "VM already running",
      rollback_data := some [("vm_name", .vStr vm_name),
                             ("original_status", .vStr original_status)] }
  else
    { operation_name := "Start VM", success := false,
      message := s!"VM is in unexpected state: {original_status}",
      error := some s!"Cannot start VM in state: {original_status}" }

/-- CreateDiskOperation.execute (create_disk.py lines 24-103): the
disks.insert call is issued, then the loop polls the disk status until
READY or timeout.  Size, type and source image shape only the insert body
and are not needed by any claim here. -/
def CreateDiskOperation.execute (disk_name : String) (timeout : Nat)
    (polled : Nat → String) : OperationResult :=
  if waitForStatus polled "READY" timeout then
    { operation_name := "Create Disk", success := true, message := "Disk created",
      rollback_data := some [("disk_name", .vStr disk_name)] }
  else
    { operation_name := "Create Disk", success := false,
      message := s!"Timeout waiting for disk creation (>{timeout}s)" }

/-- CreateSnapshotOperation.execute (create_snapshot.py lines 27-133):
auto-generates the snapshot name when none (or a falsy one) is given,
issues disks.createSnapshot, then runs the snapshot polling loop.  The
success message drops the wall-clock duration suffix. -/
def CreateSnapshotOperation.execute (disk_name : String)
    (snapshot_name : Option String) (timestamp : Nat) (timeout : Nat)
    (polled : Nat → Option String) : OperationResult :=
  let snapshot_name :=
    match snapshot_name with
    | none => s!"pre-rescue-{disk_name}-{timestamp}"
    | some n => if n = "" then s!"pre-rescue-{disk_name}-{timestamp}" else n
  match snapWait polled timeout with
  | .timedOut =>
    { operation_name := "Create Snapshot", success := false,
      message := s!"Snapshot creation timeout after {timeout}s",
      error := some "timeout" }
  | .ready =>
    { operation_name := "Create Snapshot", success := true,
      message := s!"Snapshot created: {snapshot_name}",
      rollback_data := some [("snapshot_name", .vStr snapshot_name),
                             ("disk_name", .vStr disk_name),
                             ("created_by_operation", .vBool true)] }
  | .failed =>
    { operation_name := "Create Snapshot", success := false,
      message := "Snapshot creation failed", error := some "snapshot_failed" }

/-- C7: every polling wait terminates with a characterised outcome: the
generic wait succeeds exactly when some poll within the timeout sees the
target; when the target is never seen, StopVMOperation.execute and
CreateDiskOperation.execute return failed results whose messages name the
elapsed bound; the snapshot loop returns the timeout result and message
when neither READY nor FAILED is ever seen, and a successful snapshot
result can only arise from a READY poll within the bound. -/
theorem polling_bounded_and_reported (statuses : Nat → String)
    (spolled : Nat → Option String) (target vm_name disk_name : String) (timeout : Nat) :
    (waitForStatus statuses target timeout = true ↔
      ∃ j, 5 * j ≤ timeout ∧ statuses j = target) ∧
    ((∀ j, statuses j ≠ "TERMINATED") →
      (StopVMOperation.execute vm_name timeout "RUNNING" statuses).success = false ∧
      (StopVMOperation.execute vm_name timeout "RUNNING" statuses).message
        = s!"Timeout waiting for VM to stop (>{timeout}s)") ∧
    ((∀ j, statuses j ≠ "READY") →
      (CreateDiskOperation.execute disk_name timeout statuses).success = false ∧
      (CreateDiskOperation.execute disk_name timeout statuses).message
        = s!"Timeout waiting for disk creation (>{timeout}s)") ∧
    ((∀ j, spolled j ≠ some "READY" ∧ spolled j ≠ some "FAILED") →
      (CreateSnapshotOperation.execute disk_name none 0 timeout spolled).success = false ∧
      (CreateSnapshotOperation.execute disk_name none 0 timeout spolled).message
        = s!"Snapshot creation timeout after {timeout}s") ∧
    ((CreateSnapshotOperation.execute disk_name none 0 timeout spolled).success = true →
      ∃ j, 5 * j ≤ timeout ∧ spolled j = some "READY") := by
  have hiff := waitForStatus_true_iff statuses
  have hsnap : (∀ j, spolled j ≠ some "READY" ∧ spolled j ≠ some "FAILED") →
      snapWait spolled timeout = .timedOut := by
    intro hnever
    cases hres : snapWait spolled timeout with
    | ready =>
      obtain ⟨j, _, _, hjs⟩ :=
        snapWaitFrom_ready_sound spolled timeout (timeout / 5 + 2) 0 hres
      exact absurd hjs (hnever j).1
    | failed =>
      obtain ⟨j, _, _, hjs⟩ :=
        snapWaitFrom_failed_sound spolled timeout (timeout / 5 + 2) 0 hres
      exact absurd hjs (hnever j).2
    | timedOut => rfl
  refine ⟨hiff target timeout, ?_, ?_, ?_, ?_⟩
  · intro hnever
    have hw : waitForStatus statuses "TERMINATED" timeout = false := by
      cases hb : waitForStatus statuses "TERMINATED" timeout
      · rfl
      · obtain ⟨j, _, hjs⟩ := (hiff "TERMINATED" timeout).mp hb
        exact absurd hjs (hnever j)
    unfold StopVMOperation.execute
    rw [if_pos rfl, hw]
    exact ⟨rfl, rfl⟩
  · intro hnever
    have hw : waitForStatus statuses "READY" timeout = false := by
      cases hb : waitForStatus statuses "READY" timeout
      · rfl
      · obtain ⟨j, _, hjs⟩ := (hiff "READY" timeout).mp hb
        exact absurd hjs (hnever j)
    unfold CreateDiskOperation.execute
    rw [hw]
    exact ⟨rfl, rfl⟩
  · intro hnever
    have hres := hsnap hnever
    unfold CreateSnapshotOperation.execute
    rw [hres]
    exact ⟨rfl, rfl⟩
  · intro hsucc
    unfold CreateSnapshotOperation.execute at hsucc
    cases hres : snapWait spolled timeout with
    | ready =>
      obtain ⟨j, _, hjt, hjs⟩ :=
        snapWaitFrom_ready_sound spolled timeout (timeout / 5 + 2) 0 hres
      exact ⟨j, hjt, hjs⟩
    | failed => rw [hres] at hsucc; exact absurd hsucc (by simp)
    | timedOut => rw [hres] at hsucc; exact absurd hsucc (by simp)

/-- Witness for C7 at concrete inputs: a VM that keeps reporting STOPPING
and a snapshot that keeps reporting CREATING time out with the bound in
the message, and the wait over a sequence that is TERMINATED at once
returns true. -/
theorem polling_bounded_and_reported_witness :
    (StopVMOperation.execute "vm-1" 300 "RUNNING" (fun _ => "STOPPING")).success = false ∧
    (StopVMOperation.execute "vm-1" 300 "RUNNING" (fun _ => "STOPPING")).message
      = "Timeout waiting for VM to stop (>300s)" ∧
    (CreateSnapshotOperation.execute "d1" none 0 300 (fun _ => some "CREATING")).success
      = false ∧
    (CreateSnapshotOperation.execute "d1" none 0 300 (fun _ => some "CREATING")).message
      = "Snapshot creation timeout after 300s" ∧
    waitForStatus (fun _ => "TERMINATED") "TERMINATED" 300 = true := by
  have h := polling_bounded_and_reported (fun _ => "STOPPING") (fun _ => some "CREATING")
    "TERMINATED" "vm-1" "d1" 300
  have h2 := polling_bounded_and_reported (fun _ => "TERMINATED") (fun _ => none)
    "TERMINATED" "vm-1" "d1" 300
  have hstop := h.2.1 (fun j => by decide)
  have hsnapc := h.2.2.2.1 (fun j => by exact ⟨by decide, by decide⟩)
  exact ⟨hstop.1, hstop.2, hsnapc.1, hsnapc.2, h2.1.mpr ⟨0, by omega, rfl⟩⟩

/-- The run-state part of the compute world seen by the VM run-state
rollbacks. -/
structure VMWorld where
  status : String
deriving Repr, DecidableEq

/-- StopVMOperation.rollback (stop_vm.py lines 132-183): if the recorded
original status is RUNNING the start call is issued unconditionally (there
is no check of the current status) and the loop waits for RUNNING;
otherwise nothing is done and True is returned.  A missing key raises
KeyError, caught by the handler which returns False.  Client model: the
start call settles the VM on RUNNING, which the polling loop then
observes.  Returns the rollback boolean, the settled world, and the trace
of mutating compute calls issued. -/
def StopVMOperation.rollback (rollback_data : Dict) (w : VMWorld) :
    Bool × VMWorld × List String :=
  match List.lookup "vm_name" rollback_data,
        List.lookup "original_status" rollback_data with
  | some _, some original_status =>
    if original_status.isStr "RUNNING" then
      let w2 : VMWorld := { status := "RUNNING" }
      (waitForStatus (fun _ => w2.status) "RUNNING" 300, w2, ["instances.start"])
    else
      (true, w, [])
  | _, _ => (false, w, [])

/-- StartVMOperation.rollback (start_vm.py lines 119-167), symmetric to
StopVMOperation.rollback: the stop call is issued unconditionally when the
recorded original status is TERMINATED. -/
def StartVMOperation.rollback (rollback_data : Dict) (w : VMWorld) :
    Bool × VMWorld × List String :=
  match List.lookup "vm_name" rollback_data,
        List.lookup "original_status" rollback_data with
  | some _, some original_status =>
    if original_status.isStr "TERMINATED" then
      let w2 : VMWorld := { status := "TERMINATED" }
      (waitForStatus (fun _ => w2.status) "TERMINATED" 300, w2, ["instances.stop"])
    else
      (true, w, [])
  | _, _ => (false, w, [])

/-- C4 counterexample: compensating a stop whose recorded prior status is
RUNNING while the VM is already RUNNING succeeds, but it is not a no-op:
the instances.start call is re-invoked (stop_vm.py lines 151-158 issue the
start without consulting the current status), contradicting the claim that
it succeeds without re-invoking the start call. -/
theorem stop_rollback_reinvokes_start_cex :
    (StopVMOperation.rollback
        [("vm_name", .vStr "vm-1"), ("original_status", .vStr "RUNNING")]
        ⟨"RUNNING"⟩).2.2 = ["instances.start"] ∧
    (StopVMOperation.rollback
        [("vm_name", .vStr "vm-1"), ("original_status", .vStr "RUNNING")]
        ⟨"RUNNING"⟩).1 = true :=
  ⟨rfl, rfl⟩

/-- C4 corrected: when the recorded prior status equals the current
status, both run-state rollbacks return success, but they are no-ops only
when the prior status is not the state being restored: StopVMOperation
re-invokes instances.start whenever the prior status is RUNNING (even if
the VM is already running), and StartVMOperation re-invokes instances.stop
whenever the prior status is TERMINATED. -/
theorem vm_rollback_matching_state (d : Dict) (w : VMWorld) (vm : String)
    (hv : List.lookup "vm_name" d = some (.vStr vm))
    (ho : List.lookup "original_status" d = some (.vStr w.status)) :
    (StopVMOperation.rollback d w).1 = true ∧
    (StopVMOperation.rollback d w).2.2
      = (if w.status = "RUNNING" then ["instances.start"] else []) ∧
    (StartVMOperation.rollback d w).1 = true ∧
    (StartVMOperation.rollback d w).2.2
      = (if w.status = "TERMINATED" then ["instances.stop"] else []) := by
  have hstop : StopVMOperation.rollback d w
      = (if (Value.vStr w.status).isStr "RUNNING"
          then (waitForStatus (fun _ => "RUNNING") "RUNNING" 300,
                (⟨"RUNNING"⟩ : VMWorld), ["instances.start"])
          else (true, w, [])) := by
    unfold StopVMOperation.rollback
    rw [hv, ho]
  have hstart : StartVMOperation.rollback d w
      = (if (Value.vStr w.status).isStr "TERMINATED"
          then (waitForStatus (fun _ => "TERMINATED") "TERMINATED" 300,
                (⟨"TERMINATED"⟩ : VMWorld), ["instances.stop"])
          else (true, w, [])) := by
    unfold StartVMOperation.rollback
    rw [hv, ho]
  have hwr : waitForStatus (fun _ => "RUNNING") "RUNNING" 300 = true := rfl
  have hwt : waitForStatus (fun _ => "TERMINATED") "TERMINATED" 300 = true := rfl
  have hbeqr : (Value.vStr w.status).isStr "RUNNING" = (w.status == "RUNNING") := rfl
  have hbeqt : (Value.vStr w.status).isStr "TERMINATED" = (w.status == "TERMINATED") := rfl
  rw [hstop, hstart, hbeqr, hbeqt]
  by_cases hr : w.status = "RUNNING"
  · have hc1 : (w.status == "RUNNING") = true := by rw [hr]; rfl
    have hc2 : (w.status == "TERMINATED") = false := by rw [hr]; rfl
    rw [hc1, hc2]
    refine ⟨?_, ?_, ?_, ?_⟩ <;> simp [hwr, hr]
  · by_cases ht : w.status = "TERMINATED"
    · have hc1 : (w.status == "RUNNING") = false := by rw [ht]; rfl
      have hc2 : (w.status == "TERMINATED") = true := by rw [ht]; rfl
      rw [hc1, hc2]
      refine ⟨?_, ?_, ?_, ?_⟩ <;> simp [hwt, hr, ht]
    · have hc1 : (w.status == "RUNNING") = false := by
        cases hb : w.status == "RUNNING"
        · rfl
        · exact absurd (eq_of_beq hb) hr
      have hc2 : (w.status == "TERMINATED") = false := by
        cases hb : w.status == "TERMINATED"
        · rfl
        · exact absurd (eq_of_beq hb) ht
      rw [hc1, hc2]
      refine ⟨?_, ?_, ?_, ?_⟩ <;> simp [hr, ht]

/-- Witness for C4 corrected: prior status TERMINATED with the VM already
TERMINATED is a no-op for the stop rollback and re-invokes instances.stop
for the start rollback, both returning success. -/
theorem vm_rollback_matching_state_witness :
    (StopVMOperation.rollback
        [("vm_name", .vStr "vm-1"), ("original_status", .vStr "TERMINATED")]
        ⟨"TERMINATED"⟩).1 = true ∧
    (StopVMOperation.rollback
        [("vm_name", .vStr "vm-1"), ("original_status", .vStr "TERMINATED")]
        ⟨"TERMINATED"⟩).2.2
      = (if ("TERMINATED" : String) = "RUNNING" then ["instances.start"] else []) ∧
    (StartVMOperation.rollback
        [("vm_name", .vStr "vm-1"), ("original_status", .vStr "TERMINATED")]
        ⟨"TERMINATED"⟩).1 = true ∧
    (StartVMOperation.rollback
        [("vm_name", .vStr "vm-1"), ("original_status", .vStr "TERMINATED")]
        ⟨"TERMINATED"⟩).2.2
      = (if ("TERMINATED" : String) = "TERMINATED" then ["instances.stop"] else []) :=
  vm_rollback_matching_state
    [("vm_name", .vStr "vm-1"), ("original_status", .vStr "TERMINATED")]
    ⟨"TERMINATED"⟩ "vm-1" rfl rfl

/-- CreateSnapshotOperation.rollback (create_snapshot.py lines 135-179):
skip (returning True) unless the record marks created_by_operation truthy
and carries a truthy snapshot name; otherwise issue snapshots.delete.
deleteRaises says whether that call raises; the except handler logs and
deliberately still returns True.  Returns the rollback boolean together
with whether a deletion request was issued. -/
def CreateSnapshotOperation.rollback (deleteRaises : Bool) (rollback_data : Dict) :
    Bool × Bool :=
  if !optTruthy (List.lookup "created_by_operation" rollback_data) then
    (true, false)
  else if !optTruthy (List.lookup "snapshot_name" rollback_data) then
    (true, false)
  else
    match deleteRaises with
    | true => (true, true)
    | false => (true, true)

/-- C5: rollback issues the snapshot deletion request exactly when the
record marks the snapshot as created by this run and carries a truthy
snapshot name; a record without the created-by mark never leads to a
deletion. -/
theorem snapshot_rollback_delete_iff (deleteRaises : Bool) (d : Dict) :
    (CreateSnapshotOperation.rollback deleteRaises d).2 = true ↔
      optTruthy (List.lookup "created_by_operation" d) = true ∧
      optTruthy (List.lookup "snapshot_name" d) = true := by
  unfold CreateSnapshotOperation.rollback
  by_cases h1 : optTruthy (List.lookup "created_by_operation" d) = true
  · by_cases h2 : optTruthy (List.lookup "snapshot_name" d) = true
    · cases deleteRaises <;> simp [h1, h2]
    · simp [h1, h2]
  · simp [h1]

/-- C10: CreateSnapshotOperation.rollback returns True for every
rollback_data, even when snapshots.delete raises, and therefore the
rollback handler aggregate stays true on a run whose only successful step
is the snapshot step, for every data and either raise behavior. -/
theorem rollbackStep_fst_of_ok_true (m : List (String × RollbackOp))
    (acc : Bool × List RollbackCall) (st : OperationState) (o : RollbackOp)
    (hl : List.lookup st.operation_name m = some o)
    (hok : ∀ dd, o.rollback dd = .ok true) :
    (rollbackStep m acc st).1 = acc.1 := by
  unfold rollbackStep
  rw [hl]
  show (match st.rollback_data with
    | none => acc
    | some d =>
      if d.isEmpty then acc
      else
        match o.rollback d with
        | .ok true => (acc.1, acc.2 ++ [RollbackCall.mk st.operation_name d])
        | .ok false => (false, acc.2 ++ [RollbackCall.mk st.operation_name d])
        | .raised => (false, acc.2 ++ [RollbackCall.mk st.operation_name d])).1 = acc.1
  cases st.rollback_data with
  | none => rfl
  | some dd =>
    show (if dd.isEmpty then acc
      else
        match o.rollback dd with
        | .ok true => (acc.1, acc.2 ++ [RollbackCall.mk st.operation_name dd])
        | .ok false => (false, acc.2 ++ [RollbackCall.mk st.operation_name dd])
        | .raised => (false, acc.2 ++ [RollbackCall.mk st.operation_name dd])).1 = acc.1
    rw [hok dd]
    by_cases hde : dd.isEmpty = true
    · rw [if_pos hde]
    · rw [if_neg hde]

theorem snapshot_rollback_never_fails (deleteRaises : Bool) (d : Dict) (msg : String) :
    (CreateSnapshotOperation.rollback deleteRaises d).1 = true ∧
    (RollbackHandler.rollback ⟨[⟨"Create Snapshot", true, msg, some d⟩]⟩
        [("Create Snapshot",
          ⟨fun dd => .ok (CreateSnapshotOperation.rollback deleteRaises dd).1⟩)]).1
      = true := by
  have h1all : ∀ dd, (CreateSnapshotOperation.rollback deleteRaises dd).1 = true := by
    intro dd
    unfold CreateSnapshotOperation.rollback
    by_cases h1 : optTruthy (List.lookup "created_by_operation" dd) = true
    · by_cases h2 : optTruthy (List.lookup "snapshot_name" dd) = true
      · cases deleteRaises <;> simp [h1, h2]
      · simp [h1, h2]
    · simp [h1]
  refine ⟨h1all d, ?_⟩
  unfold RollbackHandler.rollback
  have hrb : StateTracker.get_rollback_operations
      ⟨[⟨"Create Snapshot", true, msg, some d⟩]⟩
      = [⟨"Create Snapshot", true, msg, some d⟩] := rfl
  rw [hrb]
  simp only [List.foldl_cons, List.foldl_nil]
  exact rollbackStep_fst_of_ok_true _ (true, []) ⟨"Create Snapshot", true, msg, some d⟩
    ⟨fun dd => .ok (CreateSnapshotOperation.rollback deleteRaises dd).1⟩ rfl
    (fun dd => by
      show PyBool.ok (CreateSnapshotOperation.rollback deleteRaises dd).1 = PyBool.ok true
      rw [h1all dd])

/-- One disk attachment entry of an instance, with the five fields
detach_disk.py captures (source, boot, autoDelete, deviceName, mode).
The GCP API reports all of them; the source defaults boot, autoDelete and
mode when absent. -/
structure AttachedDisk where
  source : String
  boot : Bool
  autoDelete : Bool
  deviceName : String
  mode : String
deriving Repr, DecidableEq

/-- The instance state the disk and metadata operations read and write:
run status, attachment list, metadata items and the metadata fingerprint
(modelled as a counter the server bumps on every setMetadata). -/
structure Instance where
  status : String
  disks : List AttachedDisk
  metadataItems : List (String × String)
  fingerprint : Nat
deriving Repr, DecidableEq

/-- The disk_info dictionary DetachDiskOperation.execute builds
(detach_disk.py lines 47-57). -/
def diskInfoDict (dk : AttachedDisk) : Dict :=
  [("source", .vStr dk.source), ("boot", .vBool dk.boot),
   ("autoDelete", .vBool dk.autoDelete), ("deviceName", .vStr dk.deviceName),
   ("mode", .vStr dk.mode)]

/-- The for-loop with break in detach_disk.py lines 48-57: the first disk
whose deviceName matches. -/
def findDisk (disks : List AttachedDisk) (device_name : String) : Option AttachedDisk :=
  disks.find? (fun dk => dk.deviceName == device_name)

/-- DetachDiskOperation.execute (detach_disk.py lines 24-98): read the
current attachment configuration of the device, fail if the device is not
attached, otherwise capture the full configuration in the rollback data
and issue the detach (client model: the entry leaves the attachment
list). -/
def DetachDiskOperation.execute (vm_name device_name : String) (inst : Instance) :
    OperationResult × Instance :=
  match findDisk inst.disks device_name with
  | none =>
    ({ operation_name := "Detach Disk", success := false,
       message := s!"Disk {device_name} not found on VM" }, inst)
  | some disk_info =>
    ({ operation_name := "Detach Disk", success := true, message := "Disk detached",
       rollback_data := some [("vm_name", .vStr vm_name),
                              ("disk_info", .vDict (diskInfoDict disk_info))] },
     { inst with disks := inst.disks.filter (fun dk => !(dk.deviceName == device_name)) })

/-- Reading the five fields of a saved disk_info dictionary back into an
attachment configuration, as the attach_body construction of
DetachDiskOperation.rollback does (detach_disk.py lines 119-125); a
missing or ill-typed field makes the attach call fail, which the except
handler turns into False. -/
def dictToDiskInfo (d : Dict) : Option AttachedDisk :=
  match List.lookup "source" d, List.lookup "boot" d, List.lookup "autoDelete" d,
        List.lookup "deviceName" d, List.lookup "mode" d with
  | some (.vStr src), some (.vBool b), some (.vBool ad),
    some (.vStr dev), some (.vStr md) => some ⟨src, b, ad, dev, md⟩
  | _, _, _, _, _ => none

/-- DetachDiskOperation.rollback (detach_disk.py lines 100-141): re-attach
the disk using exactly the saved configuration.  Returns the rollback
boolean, the updated instance, and the trace of attach bodies issued. -/
def DetachDiskOperation.rollback (rollback_data : Dict) (inst : Instance) :
    Bool × Instance × List Dict :=
  match List.lookup "vm_name" rollback_data, List.lookup "disk_info" rollback_data with
  | some _, some (.vDict info) =>
    match dictToDiskInfo info with
    | some att => (true, { inst with disks := inst.disks ++ [att] }, [info])
    | none => (false, inst, [])
  | _, _ => (false, inst, [])

/-- AttachDiskOperation.execute (attach_disk.py lines 24-85): builds the
attach body from its own arguments (device name is the disk name) and
records only vm_name and device_name as rollback data -- no attachment
configuration. -/
def AttachDiskOperation.execute (project zone vm_name disk_name : String)
    (boot auto_delete read_only : Bool) (inst : Instance) :
    OperationResult × Instance :=
  let attach_body : AttachedDisk :=
    { source := s!"projects/{project}/zones/{zone}/disks/{disk_name}",
      boot := boot, autoDelete := auto_delete, deviceName := disk_name,
      mode := if read_only then "READ_ONLY" else "READ_WRITE" }
  ({ operation_name := "Attach Disk", success := true, message := "Disk attached",
     rollback_data := some [("vm_name", .vStr vm_name),
                            ("device_name", .vStr disk_name)] },
   { inst with disks := inst.disks ++ [attach_body] })

/-- C6: DetachDiskOperation.execute captures the device's full attachment
configuration before issuing the detach, and rollback re-attaches the disk
using exactly that captured pre-detach configuration; an AttachDisk step's
own rollback data carries no configuration at all, so the restored
configuration can only be the one recorded at DetachDisk time. -/
theorem detach_captures_and_restores (vm dev : String) (inst : Instance)
    (att : AttachedDisk) (hfind : findDisk inst.disks dev = some att) :
    ((DetachDiskOperation.execute vm dev inst).1).success = true ∧
    ((DetachDiskOperation.execute vm dev inst).1).rollback_data
      = some [("vm_name", .vStr vm), ("disk_info", .vDict (diskInfoDict att))] ∧
    (DetachDiskOperation.rollback
        [("vm_name", .vStr vm), ("disk_info", .vDict (diskInfoDict att))]
        ((DetachDiskOperation.execute vm dev inst).2)).1 = true ∧
    (DetachDiskOperation.rollback
        [("vm_name", .vStr vm), ("disk_info", .vDict (diskInfoDict att))]
        ((DetachDiskOperation.execute vm dev inst).2)).2.1.disks
      = ((DetachDiskOperation.execute vm dev inst).2).disks ++ [att] ∧
    (DetachDiskOperation.rollback
        [("vm_name", .vStr vm), ("disk_info", .vDict (diskInfoDict att))]
        ((DetachDiskOperation.execute vm dev inst).2)).2.2 = [diskInfoDict att] ∧
    ∀ (project zone disk_name : String) (boot auto_delete read_only : Bool)
      (inst2 : Instance),
      ((AttachDiskOperation.execute project zone vm disk_name boot auto_delete
          read_only inst2).1).rollback_data
        = some [("vm_name", .vStr vm), ("device_name", .vStr disk_name)] := by
  have hex : DetachDiskOperation.execute vm dev inst
      = ({ operation_name := "Detach Disk", success := true, message := "Disk detached",
           rollback_data := some [("vm_name", .vStr vm),
                                  ("disk_info", .vDict (diskInfoDict att))] },
         { inst with disks := inst.disks.filter (fun dk => !(dk.deviceName == dev)) }) := by
    unfold DetachDiskOperation.execute
    rw [hfind]
  rw [hex]
  exact ⟨rfl, rfl, rfl, rfl, rfl, fun _ _ _ _ _ _ _ => rfl⟩

/-- Witness for C6: a device attached read-only with autoDelete (a
configuration that differs from anything an AttachDisk step would have
recorded) is captured and restored exactly. -/
theorem detach_captures_and_restores_witness :
    ((DetachDiskOperation.execute "vm-1" "d1"
        ⟨"TERMINATED", [⟨"projects/p/zones/z/disks/d1", false, true, "d1", "READ_ONLY"⟩],
         [], 0⟩).1).success = true ∧
    ((DetachDiskOperation.execute "vm-1" "d1"
        ⟨"TERMINATED", [⟨"projects/p/zones/z/disks/d1", false, true, "d1", "READ_ONLY"⟩],
         [], 0⟩).1).rollback_data
      = some [("vm_name", .vStr "vm-1"),
              ("disk_info", .vDict (diskInfoDict
                ⟨"projects/p/zones/z/disks/d1", false, true, "d1", "READ_ONLY"⟩))] ∧
    (DetachDiskOperation.rollback
        [("vm_name", .vStr "vm-1"),
         ("disk_info", .vDict (diskInfoDict
           ⟨"projects/p/zones/z/disks/d1", false, true, "d1", "READ_ONLY"⟩))]
        ((DetachDiskOperation.execute "vm-1" "d1"
          ⟨"TERMINATED", [⟨"projects/p/zones/z/disks/d1", false, true, "d1", "READ_ONLY"⟩],
           [], 0⟩).2)).2.1.disks
      = ((DetachDiskOperation.execute "vm-1" "d1"
          ⟨"TERMINATED", [⟨"projects/p/zones/z/disks/d1", false, true, "d1", "READ_ONLY"⟩],
           [], 0⟩).2).disks
        ++ [⟨"projects/p/zones/z/disks/d1", false, true, "d1", "READ_ONLY"⟩] :=
  have h := detach_captures_and_restores "vm-1" "d1"
    ⟨"TERMINATED", [⟨"projects/p/zones/z/disks/d1", false, true, "d1", "READ_ONLY"⟩], [], 0⟩
    ⟨"projects/p/zones/z/disks/d1", false, true, "d1", "READ_ONLY"⟩ rfl
  ⟨h.1, h.2.1, h.2.2.2.1⟩

/-- validators/base.py, ValidationResult. -/
structure ValidationResult where
  validator_name : String
  passed : Bool
  message : String
  details : Option Dict := none
deriving Repr

/-- validators/base.py, ValidationResults: the collected outcomes. -/
structure ValidationResults where
  results : List ValidationResult
deriving Repr

/-- ValidationResults.all_passed. -/
def ValidationResults.all_passed (r : ValidationResults) : Bool :=
  r.results.all (fun x => x.passed)

/-- ValidationResults.get_failures. -/
def ValidationResults.get_failures (r : ValidationResults) : List ValidationResult :=
  r.results.filter (fun x => !x.passed)

/-- A validator as the runner sees it: a read-only check, modelled by its
name and the outcome its validate() call produces. -/
structure Validator where
  name : String
  validate : ValidationResult

/-- ValidationRunner.run_all (validators/base.py lines 183-218): run every
validator in order, appending each outcome; there is no early exit. -/
def ValidationRunner.run_all (validators : List Validator) : ValidationResults :=
  ⟨validators.map (fun v => v.validate)⟩

/-- RescueOrchestrator.validate (rescue.py lines 112-145): run the
credentials, IAM and VM-state validators and gate on all_passed. -/
def RescueOrchestrator.validate (cred iam vmstate : Validator) : Bool :=
  (ValidationRunner.run_all [cred, iam, vmstate]).all_passed

/-- main.py rescue_vm, control flow around validation: if validate()
fails, return False without calling orchestrator.execute().  Returns the
overall boolean together with whether execute() was invoked
(instrumentation). -/
def rescue_vm (cred iam vmstate : Validator) (execute_result : Bool) : Bool × Bool :=
  if !(RescueOrchestrator.validate cred iam vmstate) then (false, false)
  else (execute_result, true)

/-- C8: the pipeline never short-circuits: run_all collects one outcome per
validator in order; two failing validators both appear in the failures
list; all_passed holds exactly when every collected outcome passed; and a
workflow with a failing validator never invokes execute. -/
theorem validation_runner_collects_all (vs : List Validator) (v1 v2 : Validator)
    (h1 : v1 ∈ vs) (h2 : v2 ∈ vs)
    (hf1 : v1.validate.passed = false) (hf2 : v2.validate.passed = false) :
    (ValidationRunner.run_all vs).results = vs.map (fun v => v.validate) ∧
    v1.validate ∈ (ValidationRunner.run_all vs).get_failures ∧
    v2.validate ∈ (ValidationRunner.run_all vs).get_failures ∧
    ((ValidationRunner.run_all vs).all_passed = true ↔
      ∀ r ∈ (ValidationRunner.run_all vs).results, r.passed = true) ∧
    ∀ (cred iam vmstate : Validator) (execute_result : Bool),
      RescueOrchestrator.validate cred iam vmstate = false →
      rescue_vm cred iam vmstate execute_result = (false, false) := by
  refine ⟨rfl, ?_, ?_, ?_, ?_⟩
  · exact List.mem_filter.mpr ⟨List.mem_map_of_mem _ h1, by simp [hf1]⟩
  · exact List.mem_filter.mpr ⟨List.mem_map_of_mem _ h2, by simp [hf2]⟩
  · unfold ValidationResults.all_passed
    exact List.all_eq_true
  · intro cred iam vmstate execute_result hval
    unfold rescue_vm
    rw [hval]
    rfl

/-- Sample failing validator outcomes for the pipeline witness. -/
def sampleFailCred : Validator :=
  ⟨"Credentials", ⟨"Credentials", false, "No credentials found", none⟩⟩

/-- A second failing validator for the pipeline witness. -/
def sampleFailIam : Validator :=
  ⟨"IAM Permissions", ⟨"IAM Permissions", false, "Missing 2 required permission(s)", none⟩⟩

/-- A passing validator for the pipeline witness. -/
def samplePassVm : Validator :=
  ⟨"VM State", ⟨"VM State", true, "VM exists and is RUNNING", none⟩⟩

/-- Witness for C8: with two failing validators among three, both failures
are collected, all three outcomes are kept in order, and the rescue entry
point refuses to execute. -/
theorem validation_runner_collects_all_witness :
    (ValidationRunner.run_all [sampleFailCred, sampleFailIam, samplePassVm]).results
      = [sampleFailCred, sampleFailIam, samplePassVm].map (fun v => v.validate) ∧
    sampleFailCred.validate
      ∈ (ValidationRunner.run_all [sampleFailCred, sampleFailIam, samplePassVm]).get_failures ∧
    sampleFailIam.validate
      ∈ (ValidationRunner.run_all [sampleFailCred, sampleFailIam, samplePassVm]).get_failures ∧
    rescue_vm sampleFailCred sampleFailIam samplePassVm true = (false, false) :=
  have h := validation_runner_collects_all [sampleFailCred, sampleFailIam, samplePassVm]
    sampleFailCred sampleFailIam (List.Mem.head _) (List.Mem.tail _ (List.Mem.head _))
    rfl rfl
  ⟨h.1, h.2.1, h.2.2.1, h.2.2.2.2 sampleFailCred sampleFailIam samplePassVm true rfl⟩

/-- iam_permissions.py, INSTANCE_PERMISSIONS: the instance-level
permissions the validator actually tests. -/
def INSTANCE_PERMISSIONS : List String :=
  ["compute.instances.get", "compute.instances.stop", "compute.instances.start",
   "compute.instances.attachDisk", "compute.instances.detachDisk",
   "compute.instances.setMetadata"]

/-- iam_permissions.py, DISK_PERMISSIONS: required but, by the source's
own comment, not tested on the instance resource. -/
def DISK_PERMISSIONS : List String :=
  ["compute.disks.create", "compute.disks.delete", "compute.disks.get"]

/-- iam_permissions.py, SNAPSHOT_PERMISSIONS: required by default, also
not tested pre-flight. -/
def SNAPSHOT_PERMISSIONS : List String :=
  ["compute.disks.createSnapshot", "compute.snapshots.create",
   "compute.snapshots.get", "compute.snapshots.delete"]

/-- The full required permission set the validator class declares (its
docstring and the three class constants). -/
def requiredPermissions : List String :=
  INSTANCE_PERMISSIONS ++ DISK_PERMISSIONS ++ SNAPSHOT_PERMISSIONS

/-- IAMPermissionsValidator.validate (iam_permissions.py lines 79-183)
on the successful-API path: granted is the permission set actually held
on the target resource; testIamPermissions returns the requested subset
that is granted, and only INSTANCE_PERMISSIONS is requested.  The
remediation-hint entries of the details dictionary (required_roles, fix,
note) are omitted; the missing and granted lists are kept. -/
def IAMPermissionsValidator.validate (vm_name : Option String)
    (granted : List String) : ValidationResult :=
  match vm_name with
  | none =>
    { validator_name := "IAM Permissions", passed := false,
      message := "VM name required to check permissions",
      details := some [("error", .vStr "vm_name not provided")] }
  | some _ =>
    let granted_permissions := INSTANCE_PERMISSIONS.filter (fun p => granted.contains p)
    let missing_permissions :=
      INSTANCE_PERMISSIONS.filter (fun p => !granted_permissions.contains p)
    if !missing_permissions.isEmpty then
      { validator_name := "IAM Permissions", passed := false,
        message := s!"Missing {missing_permissions.length} required permission(s)",
        details := some [("missing", .vList (missing_permissions.map .vStr)),
                         ("granted", .vList (granted_permissions.map .vStr))] }
    else
      { validator_name := "IAM Permissions", passed := true,
        message := s!"Instance permissions OK ({granted_permissions.length}/{INSTANCE_PERMISSIONS.length})",
        details := some [("granted", .vList (granted_permissions.map .vStr))] }

/-- C9 counterexample: a principal granted exactly the six instance-level
permissions passes validation although compute.disks.create, a permission
the validator itself declares required, is not granted -- the required set
is declared but only its instance-level subset is tested. -/
theorem iam_validator_passes_with_missing_required_cex :
    (IAMPermissionsValidator.validate (some "vm-1") INSTANCE_PERMISSIONS).passed = true ∧
    requiredPermissions.contains "compute.disks.create" = true ∧
    INSTANCE_PERMISSIONS.contains "compute.disks.create" = false :=
  ⟨rfl, rfl, rfl⟩

/-- C9 corrected: the validator declares the full required set but tests
only the instance-level subset: validation passes exactly when every
INSTANCE_PERMISSIONS entry is granted, and on failure the details list the
exact missing instance-level permissions; disk and snapshot permissions
never influence the outcome. -/
theorem iam_validator_checks_instance_subset (vm : String) (granted : List String) :
    ((IAMPermissionsValidator.validate (some vm) granted).passed = true ↔
      ∀ p ∈ INSTANCE_PERMISSIONS, granted.contains p = true) ∧
    ((IAMPermissionsValidator.validate (some vm) granted).passed = false →
      (IAMPermissionsValidator.validate (some vm) granted).details
        = some [("missing", .vList ((INSTANCE_PERMISSIONS.filter
                   (fun p => !granted.contains p)).map .vStr)),
                ("granted", .vList ((INSTANCE_PERMISSIONS.filter
                   (fun p => granted.contains p)).map .vStr))]) := by
  have hmiss : INSTANCE_PERMISSIONS.filter
        (fun p => !(INSTANCE_PERMISSIONS.filter (fun q => granted.contains q)).contains p)
      = INSTANCE_PERMISSIONS.filter (fun p => !granted.contains p) := by
    apply List.filter_congr
    intro p hp
    have : (INSTANCE_PERMISSIONS.filter (fun q => granted.contains q)).contains p
        = granted.contains p := by
      cases hg : granted.contains p with
      | true =>
        have hpin : p ∈ INSTANCE_PERMISSIONS.filter (fun q => granted.contains q) :=
          List.mem_filter.mpr ⟨hp, hg⟩
        exact List.elem_iff.mpr hpin
      | false =>
        cases hc : (INSTANCE_PERMISSIONS.filter (fun q => granted.contains q)).contains p with
        | false => rfl
        | true =>
          have hpin := List.elem_iff.mp hc
          have := (List.mem_filter.mp hpin).2
          rw [hg] at this
          exact absurd this (by simp)
    rw [this]
  unfold IAMPermissionsValidator.validate
  simp only [hmiss]
  by_cases hemp : (INSTANCE_PERMISSIONS.filter (fun p => !granted.contains p)).isEmpty = true
  · rw [hemp]
    constructor
    · simp only [Bool.not_true, if_false]
      constructor
      · intro _ p hp
        have hnil := List.isEmpty_iff.mp hemp
        rw [List.filter_eq_nil_iff] at hnil
        have := hnil p hp
        cases hg : granted.contains p with
        | true => rfl
        | false => exact absurd (by rw [hg]; rfl) this
      · intro _; rfl
    · simp only [Bool.not_true, if_false]
      intro hcontra
      exact absurd hcontra (by simp)
  · rw [Bool.not_eq_true] at hemp
    rw [hemp]
    constructor
    · simp only [Bool.not_false, if_true]
      constructor
      · intro hcontra
        exact absurd hcontra (by simp)
      · intro hall
        have : (INSTANCE_PERMISSIONS.filter (fun p => !granted.contains p)) = [] := by
          rw [List.filter_eq_nil_iff]
          intro p hp
          rw [hall p hp]
          simp
        rw [this] at hemp
        exact absurd hemp (by simp [List.isEmpty])
    · simp only [Bool.not_false, if_true]
      intro _
      trivial

/-- Witness for C9 corrected: with only compute.instances.get granted,
validation fails and the details name the five missing instance
permissions. -/
theorem iam_validator_checks_instance_subset_witness :
    (IAMPermissionsValidator.validate (some "vm-1") ["compute.instances.get"]).passed
      = false ∧
    (IAMPermissionsValidator.validate (some "vm-1") ["compute.instances.get"]).details
      = some [("missing", .vList ((INSTANCE_PERMISSIONS.filter
                 (fun p => !(["compute.instances.get"] : List String).contains p)).map .vStr)),
              ("granted", .vList ((INSTANCE_PERMISSIONS.filter
                 (fun p => (["compute.instances.get"] : List String).contains p)).map .vStr))] :=
  have h := iam_validator_checks_instance_subset "vm-1" ["compute.instances.get"]
  have hfail : (IAMPermissionsValidator.validate (some "vm-1")
      ["compute.instances.get"]).passed = false := by
    cases hb : (IAMPermissionsValidator.validate (some "vm-1")
        ["compute.instances.get"]).passed with
    | false => rfl
    | true =>
      have hall := h.1.mp hb
      have := hall "compute.instances.stop" (by
        exact List.Mem.tail _ (List.Mem.head _))
      exact absurd this (by decide)
  ⟨hfail, h.2 hfail⟩

/-- The zone-level world the two workflows act on: the instance plus the
free-standing disks and the snapshots of the zone. -/
structure World where
  inst : Instance
  zoneDisks : List String
  snapshots : List String
deriving Repr, DecidableEq

/-- Python `s.split("/")[-1]` (rescue.py line 343, restore.py line 301):
the suffix after the last slash, the whole string when there is none. -/
def lastComponent (s : String) : String :=
  String.mk ((s.data.reverse.takeWhile (fun c => c != '/')).reverse)

/-- Substring search over the character list, structurally recursive. -/
def strContainsAux (pat : List Char) : List Char → Bool
  | [] => pat.isPrefixOf []
  | c :: cs => pat.isPrefixOf (c :: cs) || strContainsAux pat cs

/-- Python `pat in s` on strings (restore.py line 304). -/
def strContains (s pat : String) : Bool :=
  strContainsAux pat.data s.data

/-- SetMetadataOperation.execute (set_metadata.py lines 24-86): read the
current metadata (saved whole into the rollback data), then overwrite the
entire item set with exactly the given items.  The server assigns a fresh
fingerprint, modelled by bumping the counter. -/
def metadataItemsValue (items : List (String × String)) : Value :=
  .vList (items.map (fun kv => .vDict [("key", .vStr kv.1), ("value", .vStr kv.2)]))

/-- SetMetadataOperation.execute over the instance state. -/
def SetMetadataOperation.execute (vm_name : String)
    (metadata_items : List (String × String)) (inst : Instance) :
    OperationResult × Instance :=
  let original_metadata : Dict :=
    [("fingerprint", .vStr (toString inst.fingerprint)),
     ("items", metadataItemsValue inst.metadataItems)]
  ({ operation_name := "Set Metadata", success := true,
     message := s!"Metadata set ({metadata_items.length} items)",
     rollback_data := some [("vm_name", .vStr vm_name),
                            ("original_metadata", .vDict original_metadata)] },
   { inst with metadataItems := metadata_items, fingerprint := inst.fingerprint + 1 })

/-- StopVMOperation.execute glued to the instance state: the stop call is
issued only in the RUNNING branch and the VM then settles on TERMINATED,
which the polling loop observes. -/
def stopVMWorld (vm_name : String) (timeout : Nat) (inst : Instance) :
    OperationResult × Instance :=
  let r := StopVMOperation.execute vm_name timeout inst.status (fun _ => "TERMINATED")
  (r, if inst.status = "RUNNING" then { inst with status := "TERMINATED" } else inst)

/-- StartVMOperation.execute glued to the instance state. -/
def startVMWorld (vm_name : String) (timeout : Nat) (inst : Instance) :
    OperationResult × Instance :=
  let r := StartVMOperation.execute vm_name timeout inst.status (fun _ => "RUNNING")
  (r, if inst.status = "TERMINATED" then { inst with status := "RUNNING" } else inst)

/-- CreateDiskOperation.execute glued to the world: disks.insert adds the
disk to the zone and it settles on READY. -/
def createDiskWorld (disk_name : String) (timeout : Nat) (w : World) :
    OperationResult × World :=
  let r := CreateDiskOperation.execute disk_name timeout (fun _ => "READY")
  (r, { w with zoneDisks := w.zoneDisks ++ [disk_name] })

/-- CreateSnapshotOperation.execute glued to the world, with the
auto-generated name; the snapshot settles on READY. -/
def createSnapshotWorld (disk_name : String) (timestamp timeout : Nat) (w : World) :
    OperationResult × World :=
  let r := CreateSnapshotOperation.execute disk_name none timestamp timeout
    (fun _ => some "READY")
  (r, { w with snapshots := w.snapshots ++ [s!"pre-rescue-{disk_name}-{timestamp}"] })

/-- DeleteDiskOperation.execute (delete_disk.py lines 25-69): deletes the
disk, records no rollback data (irreversible). -/
def DeleteDiskOperation.execute (disk_name : String) (w : World) :
    OperationResult × World :=
  ({ operation_name := "Delete Disk", success := true, message := "Disk deleted",
     rollback_data := none },
   { w with zoneDisks := w.zoneDisks.erase disk_name })

/-- RescueOrchestrator._get_original_disk_info (rescue.py lines 333-346):
the first boot disk's name (last path component of its source) and device
name. -/
def getOriginalDiskInfo (inst : Instance) : Option (String × String) :=
  match inst.disks.find? (fun dk => dk.boot) with
  | some dk => some (lastComponent dk.source, dk.deviceName)
  | none => none

/-- The RescueConfig fields the rescue workflow reads (core/config.py). -/
structure RescueConfig where
  create_snapshot : Bool := true
  require_snapshot : Bool := false
  snapshot_timeout : Nat := 600
  vm_stop_timeout : Nat := 300
  vm_start_timeout : Nat := 300
  disk_create_timeout : Nat := 300
deriving Repr

/-- The RestoreConfig fields the restore workflow reads (core/config.py). -/
structure RestoreConfig where
  delete_rescue_disk : Bool := true
  vm_stop_timeout : Nat := 300
  vm_start_timeout : Nat := 300
deriving Repr

/-- RescueOrchestrator.execute (rescue.py lines 147-331): the step
sequence snapshot, stop, create rescue disk, detach boot disk, attach
rescue disk as boot, set the three rescue metadata items (replacing the
whole item set), start, re-attach the original disk as secondary.  On a
step failure the source triggers the rollback handler and returns False;
here the failure branches return (false, current world) and the rollback
attempt is not replayed -- the claims below use only the all-success
path.  timestamp stands for int(time.time()), startup_script for the
rendered template. -/
def RescueOrchestrator.execute (project zone vm_name : String) (cfg : RescueConfig)
    (timestamp : Nat) (startup_script : String) (w : World) : Bool × World :=
  let rescue_disk_name := s!"rescue-disk-{timestamp}"
  match getOriginalDiskInfo w.inst with
  | none => (false, w)
  | some (original_disk_name, original_device_name) =>
    let (w, abort0) :=
      if cfg.create_snapshot then
        let (r0, w1) := createSnapshotWorld original_disk_name timestamp
          cfg.snapshot_timeout w
        (w1, !r0.success && cfg.require_snapshot)
      else (w, false)
    if abort0 then (false, w)
    else
      let (r1, wi) := stopVMWorld vm_name cfg.vm_stop_timeout w.inst
      let w := { w with inst := wi }
      if !r1.success then (false, w)
      else
        let (r2, w) := createDiskWorld rescue_disk_name cfg.disk_create_timeout w
        if !r2.success then (false, w)
        else
          let (r3, wi) := DetachDiskOperation.execute vm_name original_device_name w.inst
          let w := { w with inst := wi }
          if !r3.success then (false, w)
          else
            let (r4, wi) := AttachDiskOperation.execute project zone vm_name
              rescue_disk_name true false false w.inst
            let w := { w with inst := wi }
            if !r4.success then (false, w)
            else
              let metadata_items :=
                [("startup-script", startup_script),
                 ("rescue-mode", toString timestamp),
                 ("rescue-original-disk", original_disk_name)]
              let (r5, wi) := SetMetadataOperation.execute vm_name metadata_items w.inst
              let w := { w with inst := wi }
              if !r5.success then (false, w)
              else
                let (r6, wi) := startVMWorld vm_name cfg.vm_start_timeout w.inst
                let w := { w with inst := wi }
                if !r6.success then (false, w)
                else
                  let (r7, wi) := AttachDiskOperation.execute project zone vm_name
                    original_disk_name false false false w.inst
                  let w := { w with inst := wi }
                  if !r7.success then (false, w)
                  else (true, w)

/-- The four fields RestoreOrchestrator._get_disk_info fills
(restore.py lines 284-310). -/
structure DiskDiscovery where
  rescue_disk_name : Option String
  rescue_device_name : Option String
  original_disk_name : Option String
  original_device_name : Option String
deriving Repr, DecidableEq

/-- RestoreOrchestrator._get_disk_info: the original disk name comes from
the rescue-original-disk metadata item (first match); then the disk loop,
with no break, lets the last matching disk win for each category: a disk
whose name contains rescue-disk is the rescue disk, a disk whose name
equals the recorded original name supplies the original device name. -/
def getDiskInfoRestore (inst : Instance) : DiskDiscovery :=
  let original_disk_name :=
    (inst.metadataItems.find? (fun kv => kv.1 == "rescue-original-disk")).map
      (fun kv => kv.2)
  inst.disks.foldl (fun acc dk =>
      let disk_name := lastComponent dk.source
      if strContains disk_name "rescue-disk" then
        { acc with rescue_disk_name := some disk_name,
                   rescue_device_name := some dk.deviceName }
      else if (match acc.original_disk_name with
               | some n => disk_name == n
               | none => false) then
        { acc with original_device_name := some dk.deviceName }
      else acc)
    ⟨none, none, original_disk_name, none⟩

/-- RestoreOrchestrator._get_clean_metadata (restore.py lines 312-329):
the items currently on the instance minus the three rescue keys. -/
def getCleanMetadata (inst : Instance) : List (String × String) :=
  inst.metadataItems.filter (fun kv =>
    !(["rescue-mode", "startup-script", "rescue-original-disk"].contains kv.1))

/-- RestoreOrchestrator.execute (restore.py lines 144-282): stop, detach
rescue disk, detach original disk, re-attach original disk as boot, set
the cleaned metadata, start, then optionally delete the rescue disk (not
tracked, failure tolerated).  A discovery field that stayed None makes
the corresponding compute call fail (the client rejects a None name);
failure branches return (false, current world) without replaying the
rollback attempt, as in the rescue model. -/
def RestoreOrchestrator.execute (project zone vm_name : String) (cfg : RestoreConfig)
    (w : World) : Bool × World :=
  let info := getDiskInfoRestore w.inst
  let (r1, wi) := stopVMWorld vm_name cfg.vm_stop_timeout w.inst
  let w := { w with inst := wi }
  if !r1.success then (false, w)
  else
    match info.rescue_device_name with
    | none => (false, w)
    | some rescue_dev =>
      let (r2, wi) := DetachDiskOperation.execute vm_name rescue_dev w.inst
      let w := { w with inst := wi }
      if !r2.success then (false, w)
      else
        match info.original_device_name with
        | none => (false, w)
        | some orig_dev =>
          let (r3, wi) := DetachDiskOperation.execute vm_name orig_dev w.inst
          let w := { w with inst := wi }
          if !r3.success then (false, w)
          else
            match info.original_disk_name with
            | none => (false, w)
            | some orig_name =>
              let (r4, wi) := AttachDiskOperation.execute project zone vm_name
                orig_name true false false w.inst
              let w := { w with inst := wi }
              if !r4.success then (false, w)
              else
                let clean := getCleanMetadata w.inst
                let (r5, wi) := SetMetadataOperation.execute vm_name clean w.inst
                let w := { w with inst := wi }
                if !r5.success then (false, w)
                else
                  let (r6, wi) := startVMWorld vm_name cfg.vm_start_timeout w.inst
                  let w := { w with inst := wi }
                  if !r6.success then (false, w)
                  else
                    if cfg.delete_rescue_disk then
                      match info.rescue_disk_name with
                      | some rname => (true, (DeleteDiskOperation.execute rname w).2)
                      | none => (true, w)
                    else (true, w)

/-- An initial world for the round trip: a running VM whose single boot
disk is attached under its own name with autoDelete off in READ_WRITE
mode, arbitrary metadata items and fingerprint. -/
def roundTripWorld (ms : List (String × String)) (fp : Nat) : World :=
  ⟨⟨"RUNNING", [⟨"projects/p/zones/z/disks/orig", true, false, "orig", "READ_WRITE"⟩],
    ms, fp⟩, ["orig"], []⟩

/-- The forward workflow followed by the reverse workflow, default
configurations (snapshot on, rescue disk deleted). -/
def roundTrip (ms : List (String × String)) (fp : Nat) : Bool × Bool × World :=
  let (ok1, w1) := RescueOrchestrator.execute "p" "z" "vm-1" {} 7 "script"
    (roundTripWorld ms fp)
  let (ok2, w2) := RestoreOrchestrator.execute "p" "z" "vm-1" {} w1
  (ok1, ok2, w2)

/-- C3 counterexample: with one unrelated metadata item ("foo", "bar")
present before the forward workflow, both workflows succeed, yet the item
set after the reverse workflow is empty: the forward workflow's
SetMetadata step replaced the whole item set with the three rescue items,
so the unrelated item is not present again after the reverse workflow. -/
theorem roundtrip_loses_unrelated_metadata_cex :
    (roundTrip [("foo", "bar")] 0).1 = true ∧
    (roundTrip [("foo", "bar")] 0).2.1 = true ∧
    ("foo", "bar") ∈ (roundTripWorld [("foo", "bar")] 0).inst.metadataItems ∧
    (roundTrip [("foo", "bar")] 0).2.2.inst.metadataItems = [] :=
  ⟨rfl, rfl, List.Mem.head _, rfl⟩

/-- C3 corrected: the round trip over any pre-rescue metadata succeeds and
returns the boot device, the attachment list and the zone disk list to
their pre-forward values (the rescue disk is deleted as configured), but
the metadata item set is not restored: the forward workflow replaces the
whole item set, so after the reverse workflow it is empty -- only the
rescue markers of the items present at restore time are stripped, and
every unrelated pre-forward item is lost. -/
theorem roundtrip_restores_disks_but_drops_metadata
    (ms : List (String × String)) (fp : Nat) :
    (roundTrip ms fp).1 = true ∧
    (roundTrip ms fp).2.1 = true ∧
    (roundTrip ms fp).2.2.inst.status = "RUNNING" ∧
    (roundTrip ms fp).2.2.inst.disks = (roundTripWorld ms fp).inst.disks ∧
    (roundTrip ms fp).2.2.zoneDisks = (roundTripWorld ms fp).zoneDisks ∧
    (roundTrip ms fp).2.2.inst.metadataItems = [] :=
  ⟨rfl, rfl, rfl, rfl, rfl, rfl⟩

end GceRescue
